import Mathlib

/-!
Shallow embedding of `src/terraform-assessment/docker/my_flow.py`.

The live part of the script (lines 52-81; lines 1-50 are commented-out
history) declares one Prefect task (`yes`, returning `"yes"`), one subflow
(`no`, registered as `"no-flow"`, returning `"no"`), one top-level flow
(`hello_flow`, registered as `"yasir-flow"`), and, under the
`__name__ == "__main__"` guard, a single `hello_flow.deploy(...)` call with
three literal configuration values.

Console output and platform interactions are modelled as an explicit event
trace; each Python callable is embedded as a Lean value pairing its return
value with the trace its body emits.
-/

/-- The configuration payload of `hello_flow.deploy` (lines 76-80 of the
script): the `name` argument, the `work_pool_name` argument, and the
`image` entry of the `job_variables` dictionary. -/
structure DeployConfig where
  name : String
  work_pool_name : String
  job_variables_image : String
deriving DecidableEq, Repr

/-- Registration metadata of a decorated callable: the Python function name
and the flow name passed to the `@flow` decorator. -/
structure FlowDecl where
  pyName : String
  flowName : String
deriving DecidableEq, Repr

/-- `@flow(name="no-flow")` on `def no` (line 54). -/
def no_decl : FlowDecl := ⟨"no", "no-flow"⟩

/-- `@flow(name="yasir-flow")` on `def hello_flow` (line 62). -/
def hello_flow_decl : FlowDecl := ⟨"hello_flow", "yasir-flow"⟩

/-- Observable events of a run: console lines, the platform calls made by
the flow body (`.submit()`, `.result()`, a direct subflow call), and the
deployment-registration call made by the module guard. -/
inductive Event where
  | print (line : String)
  | submit (taskName : String)
  | awaitResult (taskName : String)
  | subflowCall (flowName : String)
  | deploy (target : FlowDecl) (cfg : DeployConfig)
deriving DecidableEq, Repr

/-- Whether an event is a console line. -/
def Event.isPrint : Event → Bool
  | .print _ => true
  | _ => false

/-- The console lines appearing in a trace, in order. -/
def consoleOutput (tr : List Event) : List String :=
  tr.filterMap fun e =>
    match e with
    | Event.print s => some s
    | _ => none

/-- The deployment payloads appearing in a trace, in order. -/
def deployPayloads (tr : List Event) : List DeployConfig :=
  tr.filterMap fun e =>
    match e with
    | Event.deploy _ cfg => some cfg
    | _ => none

/-- Python `print(a, b)` writes its two arguments joined by one space. -/
def pyPrint2 (a b : String) : String := a ++ " " ++ b

/-- Body of the subflow `no` (lines 54-56): the single statement
`return "no"`.  The pair is (return value, events emitted by the body). -/
def no : String × List Event := ("no", [])

/-- Body of the task `yes` (lines 58-60): the single statement
`return "yes"`. -/
def yes : String × List Event := ("yes", [])

/-- Body of `hello_flow` (lines 62-72).  It takes no parameters;
statement by statement:
`print("Hello from Prefect Cloud Managed Pool!")`;
`result_yes = yes.submit()`;
`print("Task result:", result_yes.result())`;
`result_no = no()`;
`print("Subflow result:", result_no)`;
no `return` statement, so the Python function returns `None`,
modelled as `none`. -/
def hello_flow : Option String × List Event :=
  let tr := [Event.print "Hello from Prefect Cloud Managed Pool!"]
  let result_yes := yes
  let tr := tr ++ [Event.submit "yes"] ++ result_yes.2
  let tr := tr ++ [Event.awaitResult "yes",
                   Event.print (pyPrint2 "Task result:" result_yes.1)]
  let result_no := no
  let tr := tr ++ [Event.subflowCall no_decl.flowName] ++ result_no.2
  let tr := tr ++ [Event.print (pyPrint2 "Subflow result:" result_no.1)]
  (none, tr)

/-- The literal deployment payload of the guard (lines 76-80). -/
def deploy_config : DeployConfig :=
  { name := "demo-deployment"
    work_pool_name := "ecs-work-pool"
    job_variables_image :=
      "882142483262.dkr.ecr.us-east-1.amazonaws.com/prefect-flow:latest" }

/-- Module execution (lines 52-81): the three decorated declarations emit
no events; when the file runs as the entry script
(`__name__ == "__main__"`, line 74) the guard calls `hello_flow.deploy`
with the literal payload, and on a plain import it does nothing. -/
def runModule (isMainScript : Bool) : List Event :=
  if isMainScript then [Event.deploy hello_flow_decl deploy_config] else []

/-- The external platform client, which may raise on `yes.submit()` or on
`.result()`; the script's own statements contain no failure point. -/
structure Platform where
  submitErr : Option String
  resultErr : Option String

/-- `hello_flow` run against a platform client that may raise: the only
`throw`s are those of the two platform calls; every statement of the
script's own logic is straight-line and total. -/
def hello_flow_plat (p : Platform) :
    Except String (Option String × List Event) := do
  let tr := [Event.print "Hello from Prefect Cloud Managed Pool!"]
  match p.submitErr with
  | some e => throw e
  | none =>
    let result_yes := yes
    let tr := tr ++ [Event.submit "yes"] ++ result_yes.2
    match p.resultErr with
    | some e => throw e
    | none =>
      let tr := tr ++ [Event.awaitResult "yes",
                       Event.print (pyPrint2 "Task result:" result_yes.1)]
      let result_no := no
      let tr := tr ++ [Event.subflowCall no_decl.flowName] ++ result_no.2
      let tr := tr ++ [Event.print (pyPrint2 "Subflow result:" result_no.1)]
      pure (none, tr)

/-- The console stream: lines already written, in order. -/
abbrev Stdout := List String

/-- An invocation of `hello_flow` starting from console state `out`:
its return value, and the console stream with its lines appended. -/
def hello_flow_run (out : Stdout) : Option String × Stdout :=
  (hello_flow.1, out ++ consoleOutput hello_flow.2)

/-- C1 counterexample: the console output of `hello_flow` is not the
two-line list `["Task result: yes", "Subflow result: no"]` — the body's
first statement prints a third, preceding line. -/
theorem hello_flow_output_not_two_lines :
    consoleOutput hello_flow.2 ≠ ["Task result: yes", "Subflow result: no"] := by
  decide

/-- C1 (amended): every invocation of `hello_flow` produces exactly three
console lines, in order `"Hello from Prefect Cloud Managed Pool!"`,
`"Task result: yes"`, `"Subflow result: no"`, and no deployment call. -/
theorem hello_flow_output_exactly_three_lines :
    consoleOutput hello_flow.2 =
      ["Hello from Prefect Cloud Managed Pool!",
       "Task result: yes", "Subflow result: no"] ∧
    deployPayloads hello_flow.2 = [] := by
  exact ⟨rfl, rfl⟩

/-- C2: each time the entry path executes, the payload handed to the
deployment API is exactly the three literals of lines 76-80, unmodified,
and it is the only payload sent. -/
theorem entry_deploy_payload_exact :
    deployPayloads (runModule true) =
      [⟨"demo-deployment", "ecs-work-pool",
        "882142483262.dkr.ecr.us-east-1.amazonaws.com/prefect-flow:latest"⟩] := by
  exact rfl

/-- C3: the task unit `yes` returns exactly the string `"yes"` and its
body emits no event at all (no side effect beyond the return value). -/
theorem yes_returns_yes : yes = ("yes", []) := by
  exact rfl

/-- C4: the subflow unit `no` returns exactly the string `"no"` and its
body emits no event; in particular it prints nothing itself. -/
theorem no_returns_no :
    no.1 = "no" ∧ no.2 = [] ∧ consoleOutput no.2 = [] := by
  exact ⟨rfl, rfl, rfl⟩

/-- C5: stripping console lines from the trace of `hello_flow` leaves
exactly one task submission, then the wait for that task's result, then
one subflow call, in that strict order — so the subflow call never
precedes the awaited task result. -/
theorem hello_flow_task_before_subflow :
    hello_flow.2.filter (fun e => !e.isPrint) =
      [Event.submit "yes", Event.awaitResult "yes",
       Event.subflowCall "no-flow"] := by
  decide

/-- C6: `hello_flow` takes no input (it is a closed value in the
embedding) and returns `None` to its caller on every invocation. -/
theorem hello_flow_returns_none : hello_flow.1 = none := by
  exact rfl

/-- C7: when the external platform client raises no error, the run of
`hello_flow` raises no error either and agrees with the plain embedding:
every failure of `hello_flow_plat` originates in the platform fields, not
in the script's own straight-line logic. -/
theorem hello_flow_no_local_failure (p : Platform)
    (hs : p.submitErr = none) (hr : p.resultErr = none) :
    hello_flow_plat p = Except.ok hello_flow := by
  simp only [hello_flow_plat, hs, hr]
  rfl

/-- Witness for C7 at the failure-free platform. -/
theorem hello_flow_no_local_failure_witness :
    hello_flow_plat ⟨none, none⟩ = Except.ok hello_flow :=
  hello_flow_no_local_failure ⟨none, none⟩ rfl rfl

/-- C8: the deployment call happens iff the file runs as the entry
script, and a plain import of the module emits no event at all. -/
theorem deploy_iff_entry (b : Bool) :
    (deployPayloads (runModule b) ≠ [] ↔ b = true) ∧ runModule false = [] := by
  constructor
  · cases b <;> simp [runModule, deployPayloads]
  · rfl

/-- C9: `hello_flow` is deterministic: from any two console states, two
invocations return the same value and append the same lines. -/
theorem hello_flow_deterministic (s t : Stdout) :
    (hello_flow_run s).1 = (hello_flow_run t).1 ∧
    (hello_flow_run s).2.drop s.length = (hello_flow_run t).2.drop t.length := by
  refine ⟨rfl, ?_⟩
  simp [hello_flow_run]

/-- C10: the registered names differ from the Python function names: the
subflow `no` is registered as `"no-flow"`, the flow `hello_flow` as
`"yasir-flow"`, and the entry path registers the deployment
`"demo-deployment"` targeting `hello_flow`, not the subflow. -/
theorem registered_names :
    no_decl.pyName = "no" ∧ no_decl.flowName = "no-flow" ∧
    no_decl.flowName ≠ no_decl.pyName ∧
    hello_flow_decl.pyName = "hello_flow" ∧
    hello_flow_decl.flowName = "yasir-flow" ∧
    hello_flow_decl.flowName ≠ hello_flow_decl.pyName ∧
    runModule true = [Event.deploy hello_flow_decl deploy_config] ∧
    deploy_config.name = "demo-deployment" ∧
    hello_flow_decl ≠ no_decl := by
  decide
